import Mathlib

/-!
Shallow embedding of the Google Calendar agent
(`google_calendar_agent.py`): the hosted text-generation model and the
Google Calendar API are oracles recorded in an `Env` value, and every
handler returns its Python result together with the list of calendar
adapter calls it performed.  A Python exception that escapes a function
is modelled as `Except.error (e : PyErr)`.
-/

namespace CalendarAgent

/-- `EventDateTime` pydantic model: optional RFC3339 instant and optional
IANA time-zone name.  Both are kept as strings, as the JSON layer does. -/
structure EventDateTime where
  dateTime : Option String
  timeZone : Option String
deriving Repr, DecidableEq

/-- `NewEventDetails` pydantic model: the body the model returns for event
creation, also used as the patch body in `modify_event` (the Python code
uses the same `NewEventDetails` response schema there). -/
structure NewEventDetails where
  summary : String
  location : String
  description : String
  start : EventDateTime
  endT : EventDateTime
  recurrence : List String
  attendees : List String
deriving Repr, DecidableEq

/-- `EventsListParameters` pydantic model: the list filter extracted by the
model from the user's text. -/
structure EventsListParameters where
  calendarId : String
  timeMin : Option String
  timeMax : Option String
  singleEvents : Bool
  orderBy : Option String
  q : Option String
deriving Repr, DecidableEq

/-- An event item as returned by `service.events().list(...)`, restricted to
the fields the agent reads: `id`, `summary`, `start.dateTime`,
`end.dateTime`. -/
structure Event where
  id : String
  summary : String
  startDT : String
  endDT : String
deriving Repr, DecidableEq

/-- `CalendarResponse` pydantic model: the uniform outcome record. -/
structure CalendarResponse where
  success : Bool
  message : String
  calendar_link : Option String
deriving Repr, DecidableEq

/-- The `event_type` literal of `CalendarRequestType`. -/
inductive EventType where
  | new_event
  | modify_event
  | delete_event
  | other
deriving Repr, DecidableEq

/-- `CalendarEvent` pydantic model (first classification step).  The Python
confidence is a float in [0,1]; it is embedded as a rational. -/
structure CalendarEventCheck where
  description : String
  is_calendar_event : Bool
  confidence_score : ℚ
deriving Repr, DecidableEq

/-- `CalendarRequestType` pydantic model (second classification step). -/
structure CalendarRequestType where
  description : String
  event_type : EventType
  confidence_score : ℚ
deriving Repr, DecidableEq

/-- A Python exception escaping a handler: an uncaught error raised by a
`run_model` call (the genai calls are not wrapped in try/except), or the
`IndexError` raised by `events[0]` on an empty list. -/
inductive PyErr where
  | modelError (msg : String)
  | indexError
deriving Repr, DecidableEq

/-- One call made against the Google Calendar API service. -/
inductive CalCall where
  | list (params : EventsListParameters)
  | insert (calendarId : String) (body : NewEventDetails)
  | patch (calendarId : String) (eventId : String) (body : NewEventDetails)
  | delete (calendarId : String) (eventId : String)
deriving Repr, DecidableEq

/-- The oracles of one run: the outcome of each `run_model` invocation
(per call site, since each site uses its own schema and instruction), the
behaviour of the four calendar verbs, and the console reply to the delete
confirmation prompt.  `Except.error` models a raised exception of the
remote call. -/
structure Env where
  classifyCalendar : Except String CalendarEventCheck
  classifyType : Except String CalendarRequestType
  modelListParams : Except String EventsListParameters
  modelNewEvent : Except String NewEventDetails
  modelModifyFields : Except String NewEventDetails
  listApi : EventsListParameters → Except String (List Event)
  insertApi : String → NewEventDetails → Except String String
  patchApi : String → String → NewEventDetails → Except String Unit
  deleteApi : String → String → Except String Unit
  confirmInput : String

/-- `get_calendar_events`: one unguarded `run_model` call returning the
parsed `EventsListParameters`; a model failure escapes as an exception.
The `credentials` and `calendar_id` parameters of the Python function are
unused there and omitted. -/
def get_calendar_events (env : Env) : Except PyErr EventsListParameters :=
  match env.modelListParams with
  | Except.error e => Except.error (PyErr.modelError e)
  | Except.ok p => Except.ok p

/-- `delete_event_by_id`: one `delete` call; an `HttpError` is caught and
turned into a failure `CalendarResponse`. -/
def delete_event_by_id (deleteApi : String → String → Except String Unit)
    (calendar_id : String) (event_id : String) :
    CalendarResponse × List CalCall :=
  match deleteApi calendar_id event_id with
  | Except.error err =>
      (⟨false, "An error occurred: " ++ err, none⟩,
        [CalCall.delete calendar_id event_id])
  | Except.ok _ =>
      (⟨true, "Event " ++ event_id ++ " deleted", none⟩,
        [CalCall.delete calendar_id event_id])

/-- The per-event success line appended by `delete_event`. -/
def deletedLine (e : Event) : String :=
  "Event " ++ e.id ++ ": " ++ e.summary ++ " from " ++ e.startDT ++ " to "
    ++ e.endDT ++ " deleted\n"

/-- The per-event failure line appended by `delete_event`. -/
def deletionErrorLine (e : Event) (msg : String) : String :=
  "Event " ++ e.id ++ ": deletion error " ++ msg ++ "\n"

/-- The `for event in events` loop of `delete_event` in the `all` branch:
delete each event, accumulating one line per event and the delete calls. -/
def deleteAllLoop (env : Env) (calendar_id : String) :
    List Event → String × List CalCall
  | [] => ("", [])
  | e :: rest =>
      let step := delete_event_by_id env.deleteApi calendar_id e.id
      let line :=
        if step.1.success then deletedLine e
        else deletionErrorLine e step.1.message
      let tail := deleteAllLoop env calendar_id rest
      (line ++ tail.1, step.2 ++ tail.2)

/-- The deletion phase of `delete_event` after the (possibly skipped)
confirmation: the `all` loop, or the single delete of `events[0]` whose
message line is built from the Python variable `event`, which at that
point holds the LAST element printed by the confirmation loop; on an
empty list, `events[0]` raises `IndexError`. -/
def deletePhase (env : Env) (calendar_id : String) (events : List Event)
    (all : Bool) : Except PyErr CalendarResponse × List CalCall :=
  if all then
    let res := deleteAllLoop env calendar_id events
    (Except.ok ⟨true, res.1, none⟩, res.2)
  else
    match events with
    | [] => (Except.error PyErr.indexError, [])
    | e0 :: rest =>
        let lastEv := (e0 :: rest).getLast (List.cons_ne_nil e0 rest)
        let step := delete_event_by_id env.deleteApi calendar_id e0.id
        let line :=
          if step.1.success then deletedLine lastEv
          else deletionErrorLine lastEv step.1.message
        (Except.ok ⟨true, line, none⟩, step.2)

/-- Python `str.lower()` on the confirmation reply, character by
character. -/
def strLower (s : String) : String := String.mk (s.data.map Char.toLower)

/-- `delete_event`: derive list parameters via the model, list matching
events (HttpError caught), ask for console confirmation when at least one
event matched, then run the deletion phase; the final `CalendarResponse`
always has `success=True`. -/
def delete_event (env : Env) (calendar_id : String) (description : String)
    (all : Bool) : Except PyErr CalendarResponse × List CalCall :=
  match get_calendar_events env with
  | Except.error e => (Except.error e, [])
  | Except.ok events_list_parameters =>
      match env.listApi events_list_parameters with
      | Except.error err =>
          (Except.ok ⟨false, "An error occurred: " ++ err, none⟩,
            [CalCall.list events_list_parameters])
      | Except.ok events =>
          if events.length > 0 ∧ strLower env.confirmInput ≠ "y" then
            (Except.ok ⟨false, "User did not confirm deletion of events", none⟩,
              [CalCall.list events_list_parameters])
          else
            let res := deletePhase env calendar_id events all
            (res.1, CalCall.list events_list_parameters :: res.2)

/-- Failure message of `modify_event` when the search finds no event. -/
def noEventsFoundMsg (description : String) : String :=
  "ERROR: No events found for the description '" ++ description ++ "'"

/-- Failure message of `modify_event` when the search finds several events. -/
def multipleEventsMsg (description : String) : String :=
  "ERROR: Multiple events found for the description '" ++ description
    ++ "'. Please make the description more specific."

/-- Success message of `modify_event`, built from `events[0]`. -/
def modifiedMsg (e : Event) : String :=
  "Event " ++ e.id ++ ": " ++ e.summary ++ " from " ++ e.startDT ++ " to "
    ++ e.endDT ++ " modified"

/-- `modify_event`: derive list parameters via the model, list matching
events against the model-extracted `calendarId`, require exactly one
match, derive the fields to change via a second (unguarded) model call,
then patch that event on the caller's `calendar_id`. -/
def modify_event (env : Env) (calendar_id : String) (description : String) :
    Except PyErr CalendarResponse × List CalCall :=
  match get_calendar_events env with
  | Except.error e => (Except.error e, [])
  | Except.ok params =>
      match env.listApi params with
      | Except.error err =>
          (Except.ok ⟨false, "An error occurred: " ++ err, none⟩,
            [CalCall.list params])
      | Except.ok events =>
          match events with
          | [] =>
              (Except.ok ⟨false, noEventsFoundMsg description, none⟩,
                [CalCall.list params])
          | [event0] =>
              match env.modelModifyFields with
              | Except.error e =>
                  (Except.error (PyErr.modelError e), [CalCall.list params])
              | Except.ok fields =>
                  match env.patchApi calendar_id event0.id fields with
                  | Except.error err =>
                      (Except.ok ⟨false,
                          "An error occurred while modifying the event ("
                            ++ event0.id ++ "): " ++ err, none⟩,
                        [CalCall.list params,
                          CalCall.patch calendar_id event0.id fields])
                  | Except.ok _ =>
                      (Except.ok ⟨true, modifiedMsg event0, none⟩,
                        [CalCall.list params,
                          CalCall.patch calendar_id event0.id fields])
          | _ :: _ :: _ =>
              (Except.ok ⟨false, multipleEventsMsg description, none⟩,
                [CalCall.list params])

/-- Rendering of an optional string in an f-string, as Python prints it. -/
def optStr : Option String → String
  | none => "None"
  | some s => s

/-- Success message of `create_new_event`. -/
def createdMsg (d : NewEventDetails) : String :=
  "New calendar event '" ++ d.summary ++ "' created for "
    ++ optStr d.start.dateTime ++ " with "
    ++ String.intercalate ", " d.attendees

/-- `create_new_event`: one unguarded model call extracting the event
fields, then one `insert` call with `HttpError` caught into a failure
response; on success the response carries the created event's link. -/
def create_new_event (env : Env) (calendar_id : String) (description : String) :
    Except PyErr CalendarResponse × List CalCall :=
  match env.modelNewEvent with
  | Except.error e => (Except.error (PyErr.modelError e), [])
  | Except.ok details =>
      match env.insertApi calendar_id details with
      | Except.error err =>
          (Except.ok ⟨false, "An error occurred: " ++ err, none⟩,
            [CalCall.insert calendar_id details])
      | Except.ok link =>
          (Except.ok ⟨true, createdMsg details, some link⟩,
            [CalCall.insert calendar_id details])

/-- `process_calendar_request`: the dispatcher.  First classification with
its 0.7 confidence gate; on failure of the gate, `None` is returned and
the second classification never runs.  Then the request type routes to the
create / modify / delete handler, each gated by `> 0.7` confidence; any
other combination returns `None`. -/
def process_calendar_request (env : Env) (calendar_id : String)
    (user_input : String) :
    Except PyErr (Option CalendarResponse) × List CalCall :=
  match env.classifyCalendar with
  | Except.error e => (Except.error (PyErr.modelError e), [])
  | Except.ok is_calendar_event =>
      if is_calendar_event.is_calendar_event = true
          ∧ (7 : ℚ)/10 < is_calendar_event.confidence_score then
        match env.classifyType with
        | Except.error e => (Except.error (PyErr.modelError e), [])
        | Except.ok calendar_request_type =>
            if calendar_request_type.event_type = EventType.new_event
                ∧ (7 : ℚ)/10 < calendar_request_type.confidence_score then
              let res := create_new_event env calendar_id
                calendar_request_type.description
              (res.1.map some, res.2)
            else if calendar_request_type.event_type = EventType.modify_event
                ∧ (7 : ℚ)/10 < calendar_request_type.confidence_score then
              let res := modify_event env calendar_id
                calendar_request_type.description
              (res.1.map some, res.2)
            else if calendar_request_type.event_type = EventType.delete_event
                ∧ (7 : ℚ)/10 < calendar_request_type.confidence_score then
              let res := delete_event env calendar_id
                calendar_request_type.description false
              (res.1.map some, res.2)
            else (Except.ok none, [])
      else (Except.ok none, [])

/-- Is this call a `patch` call? -/
def isPatchCall : CalCall → Bool
  | CalCall.patch _ _ _ => true
  | _ => false

/-- Is this call a `delete` call? -/
def isDeleteCall : CalCall → Bool
  | CalCall.delete _ _ => true
  | _ => false

/-- Is this call an `insert` call? -/
def isInsertCall : CalCall → Bool
  | CalCall.insert _ _ => true
  | _ => false

/-- The calendar a search (`list`) call is issued against. -/
def searchCalendar : CalCall → Option String
  | CalCall.list p => some p.calendarId
  | _ => none

/-- The calendar a mutating call (`insert`/`patch`/`delete`) is issued
against. -/
def mutationCalendar : CalCall → Option String
  | CalCall.insert c _ => some c
  | CalCall.patch c _ _ => some c
  | CalCall.delete c _ => some c
  | CalCall.list _ => none

/-- Concatenation of message lines, in order. -/
def joinLines : List String → String
  | [] => ""
  | s :: rest => s ++ joinLines rest

/-- The line `delete_event` appends for one event in the `all` loop,
as a function of whether its delete call succeeds. -/
def lineFor (env : Env) (calendar_id : String) (e : Event) : String :=
  match env.deleteApi calendar_id e.id with
  | Except.ok _ => deletedLine e
  | Except.error err => deletionErrorLine e ("An error occurred: " ++ err)

/-! Concrete fixtures used by the witnesses. -/

/-- A first concrete event. -/
def ev1 : Event :=
  ⟨"e1", "Team sync", "2024-06-10T09:00:00-07:00", "2024-06-10T09:30:00-07:00"⟩

/-- A second concrete event. -/
def ev2 : Event :=
  ⟨"e2", "Design review", "2024-06-11T10:00:00-07:00", "2024-06-11T11:00:00-07:00"⟩

/-- A concrete extracted event body. -/
def detailsA : NewEventDetails :=
  ⟨"Team meeting", "Room 1", "Weekly sync",
    ⟨some "2024-06-11T14:00:00-07:00", some "America/Los_Angeles"⟩,
    ⟨some "2024-06-11T15:00:00-07:00", some "America/Los_Angeles"⟩,
    [], ["john@email.com"]⟩

/-- A concrete extracted list filter. -/
def paramsA : EventsListParameters :=
  ⟨"primary", some "2024-06-10T00:00:00Z", none, true, some "startTime",
    some "meeting"⟩

/-- A positive first classification. -/
def clsYes : CalendarEventCheck := ⟨"team meeting", true, 9/10⟩

/-- A confident modify classification. -/
def rtModify : CalendarRequestType := ⟨"team meeting", EventType.modify_event, 9/10⟩

/-- A concrete environment: both classifications and all extraction calls
succeed with the fixtures above, the list call returns `events`, the
insert and patch calls succeed, the delete call succeeds on `"e1"` and
fails on every other id, and the confirmation reply is `confirm`. -/
def mkEnv (cls : CalendarEventCheck) (rt : CalendarRequestType)
    (events : List Event) (confirm : String) : Env :=
  ⟨Except.ok cls, Except.ok rt, Except.ok paramsA, Except.ok detailsA,
    Except.ok detailsA,
    fun _ => Except.ok events,
    fun _ _ => Except.ok "https://calendar.google.com/event/abc",
    fun _ _ _ => Except.ok (),
    fun _ eid => if eid = "e1" then Except.ok () else Except.error "rate limit",
    confirm⟩

/-! Helper lemmas. -/

/-- The bulk-delete loop produces one line and one delete call per matched
event, in the order of the returned sequence. -/
theorem deleteAllLoop_eq (env : Env) (cid : String) (events : List Event) :
    deleteAllLoop env cid events =
      (joinLines (events.map (lineFor env cid)),
        events.map (fun e => CalCall.delete cid e.id)) := by
  induction events with
  | nil => rfl
  | cons e rest ih =>
      cases h : env.deleteApi cid e.id with
      | ok u =>
          simp [deleteAllLoop, ih, delete_event_by_id, h, lineFor, joinLines]
      | error err =>
          simp [deleteAllLoop, ih, delete_event_by_id, h, lineFor, joinLines]

/-! Claims. -/

/-- C1: if the first classification judges the text not calendar-related or
its confidence is ≤ 0.7, or the second classification yields kind "other"
or request-type confidence ≤ 0.7, then `process_calendar_request` returns
`None` and no calendar-adapter call is made. -/
theorem C1_low_confidence_drops (env : Env) (cid input : String)
    (cls : CalendarEventCheck) (rt : CalendarRequestType)
    (hc : env.classifyCalendar = Except.ok cls)
    (hr : env.classifyType = Except.ok rt)
    (h : cls.is_calendar_event = false ∨ cls.confidence_score ≤ 7/10
        ∨ rt.event_type = EventType.other ∨ rt.confidence_score ≤ 7/10) :
    process_calendar_request env cid input = (Except.ok none, []) := by
  rcases h with h | h | h | h
  · simp [process_calendar_request, hc, h]
  · have h1 : ¬((7 : ℚ)/10 < cls.confidence_score) := not_lt.mpr h
    simp [process_calendar_request, hc, h1]
  · by_cases hg : cls.is_calendar_event = true
        ∧ (7 : ℚ)/10 < cls.confidence_score
    · simp [process_calendar_request, hc, hr, hg, h]
    · simp [process_calendar_request, hc, hg]
  · by_cases hg : cls.is_calendar_event = true
        ∧ (7 : ℚ)/10 < cls.confidence_score
    · have h1 : ¬((7 : ℚ)/10 < rt.confidence_score) := not_lt.mpr h
      simp [process_calendar_request, hc, hr, hg, h1]
    · simp [process_calendar_request, hc, hg]

/-- Witness for C1 at a concrete environment whose second classification is
"other". -/
theorem C1_witness :
    process_calendar_request
      (mkEnv clsYes ⟨"q", EventType.other, 9/10⟩ [ev1] "y") "primary"
      "what is the weather" = (Except.ok none, []) :=
  C1_low_confidence_drops
    (mkEnv clsYes ⟨"q", EventType.other, 9/10⟩ [ev1] "y") "primary"
    "what is the weather" clsYes ⟨"q", EventType.other, 9/10⟩ rfl rfl
    (Or.inr (Or.inr (Or.inl rfl)))

/-- C2: the modify handler returns a failure with the "no events found"
message and performs no patch call on zero matches; returns a failure with
the distinct "multiple events" message and no patch call on two or more
matches; and on exactly one match performs exactly one patch call whose
body is exactly the fields the model returned. -/
theorem C2_modify_exactly_one (env : Env) (cid desc : String)
    (params : EventsListParameters) (events : List Event)
    (h1 : env.modelListParams = Except.ok params)
    (h2 : env.listApi params = Except.ok events) :
    (events = [] →
      (modify_event env cid desc).1
          = Except.ok ⟨false, noEventsFoundMsg desc, none⟩ ∧
        (modify_event env cid desc).2.filter isPatchCall = []) ∧
    (2 ≤ events.length →
      (modify_event env cid desc).1
          = Except.ok ⟨false, multipleEventsMsg desc, none⟩ ∧
        (modify_event env cid desc).2.filter isPatchCall = []) ∧
    noEventsFoundMsg desc ≠ multipleEventsMsg desc ∧
    (∀ e0 fields, events = [e0] → env.modelModifyFields = Except.ok fields →
      (modify_event env cid desc).2.filter isPatchCall
        = [CalCall.patch cid e0.id fields]) := by
  refine ⟨?_, ?_, ?_, ?_⟩
  · intro he; subst he
    simp [modify_event, get_calendar_events, h1, h2, isPatchCall]
  · intro hlen
    rcases events with _ | ⟨a, rest⟩
    · exact absurd hlen (by simp)
    rcases rest with _ | ⟨b, rest2⟩
    · exact absurd hlen (by simp)
    simp [modify_event, get_calendar_events, h1, h2, isPatchCall]
  · intro heq
    have hlen := congrArg String.length heq
    simp only [noEventsFoundMsg, multipleEventsMsg, String.length_append] at hlen
    have e1 : "ERROR: No events found for the description '".length = 44 := rfl
    have e2 : "'".length = 1 := rfl
    have e3 : "ERROR: Multiple events found for the description '".length = 50
      := rfl
    have e4 : "'. Please make the description more specific.".length = 45 := rfl
    rw [e1, e2, e3, e4] at hlen
    omega
  · intro e0 fields he hm; subst he
    cases hp : env.patchApi cid e0.id fields with
    | ok u =>
        simp [modify_event, get_calendar_events, h1, h2, hm, hp, isPatchCall]
    | error err =>
        simp [modify_event, get_calendar_events, h1, h2, hm, hp, isPatchCall]

/-- Witness for C2: at a concrete environment with exactly one match the
patch call list is exactly one patch with the model's fields. -/
theorem C2_witness :
    (modify_event (mkEnv clsYes rtModify [ev1] "y") "primary"
        "move the meeting").2.filter isPatchCall
      = [CalCall.patch "primary" "e1" detailsA] :=
  (C2_modify_exactly_one (mkEnv clsYes rtModify [ev1] "y") "primary"
    "move the meeting" paramsA [ev1] rfl rfl).2.2.2 ev1 detailsA rfl rfl

/-- A confident delete classification. -/
def rtDelete : CalendarRequestType := ⟨"meetings", EventType.delete_event, 9/10⟩

/-- C3 (actual code behaviour at zero matches): when the search returns no
events, the delete handler returns `success=True` with an EMPTY message in
delete-all mode, and raises `IndexError` (evaluating `events[0]`) in
single-delete mode; in neither mode does it return a non-success Outcome
with an explanatory message. -/
theorem C3_zero_matches_behaviour (env : Env) (cid desc : String)
    (params : EventsListParameters)
    (h1 : env.modelListParams = Except.ok params)
    (h2 : env.listApi params = Except.ok []) :
    delete_event env cid desc true
        = (Except.ok ⟨true, "", none⟩, [CalCall.list params]) ∧
    delete_event env cid desc false
        = (Except.error PyErr.indexError, [CalCall.list params]) := by
  constructor
  · simp [delete_event, get_calendar_events, h1, h2, deletePhase, deleteAllLoop]
  · simp [delete_event, get_calendar_events, h1, h2, deletePhase]

/-- Witness for C3 at a concrete environment whose search matches nothing. -/
theorem C3_witness :
    delete_event (mkEnv clsYes rtDelete [] "y") "primary" "the gala" true
        = (Except.ok ⟨true, "", none⟩, [CalCall.list paramsA]) ∧
    delete_event (mkEnv clsYes rtDelete [] "y") "primary" "the gala" false
        = (Except.error PyErr.indexError, [CalCall.list paramsA]) :=
  C3_zero_matches_behaviour (mkEnv clsYes rtDelete [] "y") "primary"
    "the gala" paramsA rfl rfl

/-- Filtering for delete calls keeps every call of a delete-only list. -/
theorem filter_isDeleteCall_map (cid : String) (events : List Event) :
    (events.map (fun e => CalCall.delete cid e.id)).filter isDeleteCall
      = events.map (fun e => CalCall.delete cid e.id) := by
  induction events with
  | nil => rfl
  | cons e rest ih => simp [List.filter, isDeleteCall, ih]

/-- C4: in delete-all mode with confirmation given, one delete call is
attempted per matched event (failures do not abort the loop), the combined
message is the in-order concatenation of each event's individual
success/failure line, and the overall Outcome reports success. -/
theorem C4_bulk_delete_accumulates (env : Env) (cid desc : String)
    (params : EventsListParameters) (events : List Event)
    (h1 : env.modelListParams = Except.ok params)
    (h2 : env.listApi params = Except.ok events)
    (h3 : strLower env.confirmInput = "y") :
    (delete_event env cid desc true).1
        = Except.ok ⟨true, joinLines (events.map (lineFor env cid)), none⟩ ∧
    (delete_event env cid desc true).2.filter isDeleteCall
        = events.map (fun e => CalCall.delete cid e.id) := by
  have hloop := deleteAllLoop_eq env cid events
  constructor
  · simp [delete_event, get_calendar_events, h1, h2, h3, deletePhase, hloop]
  · simp [delete_event, get_calendar_events, h1, h2, h3, deletePhase, hloop,
      isDeleteCall, filter_isDeleteCall_map]

/-- Witness for C4: two matches, the second deletion failing; both deletes
are attempted, the message stacks both lines, success is reported. -/
theorem C4_witness :
    (delete_event (mkEnv clsYes rtDelete [ev1, ev2] "y") "primary"
        "clear my meetings" true).1
      = Except.ok ⟨true,
          joinLines ([ev1, ev2].map
            (lineFor (mkEnv clsYes rtDelete [ev1, ev2] "y") "primary")),
          none⟩ ∧
    (delete_event (mkEnv clsYes rtDelete [ev1, ev2] "y") "primary"
        "clear my meetings" true).2.filter isDeleteCall
      = [ev1, ev2].map (fun e => CalCall.delete "primary" e.id) :=
  C4_bulk_delete_accumulates (mkEnv clsYes rtDelete [ev1, ev2] "y")
    "primary" "clear my meetings" paramsA [ev1, ev2] rfl rfl rfl

/-- C5: in single-delete mode with at least one match and confirmation
given, exactly one delete call is made and it targets the FIRST element of
the matched sequence, however many matches exist; when that deletion
succeeds the returned message is one deletion line (built, as the code
does, from the last event printed by the confirmation loop). -/
theorem C5_single_deletes_first (env : Env) (cid desc : String)
    (params : EventsListParameters) (e0 : Event) (rest : List Event)
    (h1 : env.modelListParams = Except.ok params)
    (h2 : env.listApi params = Except.ok (e0 :: rest))
    (h3 : strLower env.confirmInput = "y") :
    (delete_event env cid desc false).2.filter isDeleteCall
        = [CalCall.delete cid e0.id] ∧
    (∀ u : Unit, env.deleteApi cid e0.id = Except.ok u →
      (delete_event env cid desc false).1 = Except.ok
        ⟨true, deletedLine ((e0 :: rest).getLast (List.cons_ne_nil e0 rest)),
          none⟩) := by
  constructor
  · cases hd : env.deleteApi cid e0.id with
    | ok u =>
        simp [delete_event, get_calendar_events, h1, h2, h3, deletePhase,
          delete_event_by_id, hd, isDeleteCall]
    | error err =>
        simp [delete_event, get_calendar_events, h1, h2, h3, deletePhase,
          delete_event_by_id, hd, isDeleteCall]
  · intro u hd
    simp [delete_event, get_calendar_events, h1, h2, h3, deletePhase,
      delete_event_by_id, hd]

/-- Witness for C5: two matches, single-delete mode deletes only `"e1"`,
the first returned event, and the message is one deletion line. -/
theorem C5_witness :
    (delete_event (mkEnv clsYes rtDelete [ev1, ev2] "y") "primary"
        "remove the meeting" false).2.filter isDeleteCall
      = [CalCall.delete "primary" "e1"] ∧
    (delete_event (mkEnv clsYes rtDelete [ev1, ev2] "y") "primary"
        "remove the meeting" false).1
      = Except.ok ⟨true,
          deletedLine ((ev1 :: [ev2]).getLast (List.cons_ne_nil ev1 [ev2])),
          none⟩ :=
  ⟨(C5_single_deletes_first (mkEnv clsYes rtDelete [ev1, ev2] "y") "primary"
      "remove the meeting" paramsA ev1 [ev2] rfl rfl rfl).1,
   (C5_single_deletes_first (mkEnv clsYes rtDelete [ev1, ev2] "y") "primary"
      "remove the meeting" paramsA ev1 [ev2] rfl rfl rfl).2 () rfl⟩

/-- C8: once the deletion phase is reached (at least one match and
confirmation given), the returned Outcome has `success=True` in both
modes, whatever the delete calls do: a deletion failure is visible only in
the message. -/
theorem C8_success_despite_failures (env : Env) (cid desc : String)
    (params : EventsListParameters) (e0 : Event) (rest : List Event)
    (all : Bool)
    (h1 : env.modelListParams = Except.ok params)
    (h2 : env.listApi params = Except.ok (e0 :: rest))
    (h3 : strLower env.confirmInput = "y") :
    ∃ msg, (delete_event env cid desc all).1 = Except.ok ⟨true, msg, none⟩ := by
  cases all with
  | true =>
      refine ⟨(deleteAllLoop env cid (e0 :: rest)).1, ?_⟩
      simp [delete_event, get_calendar_events, h1, h2, h3, deletePhase]
  | false =>
      cases hd : env.deleteApi cid e0.id with
      | ok u =>
          refine ⟨deletedLine ((e0 :: rest).getLast (List.cons_ne_nil e0 rest)),
            ?_⟩
          simp [delete_event, get_calendar_events, h1, h2, h3, deletePhase,
            delete_event_by_id, hd]
      | error err =>
          refine ⟨deletionErrorLine
              ((e0 :: rest).getLast (List.cons_ne_nil e0 rest))
              ("An error occurred: " ++ err), ?_⟩
          simp [delete_event, get_calendar_events, h1, h2, h3, deletePhase,
            delete_event_by_id, hd]

/-- Witness for C8: the one targeted deletion (of `"e2"`) fails, yet the
Outcome still reports success. -/
theorem C8_witness :
    ∃ msg, (delete_event (mkEnv clsYes rtDelete [ev2] "y") "primary"
        "remove the review" false).1 = Except.ok ⟨true, msg, none⟩ :=
  C8_success_despite_failures (mkEnv clsYes rtDelete [ev2] "y") "primary"
    "remove the review" paramsA ev2 [] false rfl rfl rfl

/-- C9: with at least one match, any confirmation reply other than a
case-insensitive "y" yields the non-success Outcome "User did not confirm
deletion of events" and zero delete calls, in both modes. -/
theorem C9_confirmation_gate (env : Env) (cid desc : String)
    (params : EventsListParameters) (e0 : Event) (rest : List Event)
    (all : Bool)
    (h1 : env.modelListParams = Except.ok params)
    (h2 : env.listApi params = Except.ok (e0 :: rest))
    (h3 : strLower env.confirmInput ≠ "y") :
    delete_event env cid desc all
      = (Except.ok ⟨false, "User did not confirm deletion of events", none⟩,
          [CalCall.list params]) := by
  simp [delete_event, get_calendar_events, h1, h2, h3]

/-- Witness for C9 at the reply "n". -/
theorem C9_witness :
    delete_event (mkEnv clsYes rtDelete [ev1, ev2] "n") "primary"
        "remove the meeting" true
      = (Except.ok ⟨false, "User did not confirm deletion of events", none⟩,
          [CalCall.list paramsA]) :=
  C9_confirmation_gate (mkEnv clsYes rtDelete [ev1, ev2] "n") "primary"
    "remove the meeting" paramsA ev1 [ev2] true rfl rfl (by decide)

/-- An environment whose very first model call (the classification) raises
a service error. -/
def envModelDown : Env :=
  ⟨Except.error "503 Service Unavailable", Except.ok rtDelete,
    Except.ok paramsA, Except.ok detailsA, Except.ok detailsA,
    fun _ => Except.ok [], fun _ _ => Except.ok "link",
    fun _ _ _ => Except.ok (), fun _ _ => Except.ok (), "y"⟩

/-- C6 counterexample: a failing text-generation call is NOT converted into
a non-success Outcome — it escapes the dispatcher as an uncaught
exception (`Except.error`, not an `Except.ok` Outcome), because none of
the `run_model` call sites is wrapped in try/except. -/
theorem C6_counterexample :
    (process_calendar_request envModelDown "primary" "set up a meeting").1
      = Except.error (PyErr.modelError "503 Service Unavailable") := rfl

/-- C6 as amended: every CALENDAR-service call failure is caught at the
point of the call and converted immediately into a non-success Outcome
carrying the remote error's message (insert, delete, list in both flows,
patch), with nothing retried; TEXT-GENERATION model failures are not
caught and propagate to the caller as exceptions. -/
theorem C6_error_propagation (env : Env) (cid desc eid : String) :
    (∀ details err, env.modelNewEvent = Except.ok details →
      env.insertApi cid details = Except.error err →
      create_new_event env cid desc
        = (Except.ok ⟨false, "An error occurred: " ++ err, none⟩,
            [CalCall.insert cid details])) ∧
    (∀ err, env.deleteApi cid eid = Except.error err →
      delete_event_by_id env.deleteApi cid eid
        = (⟨false, "An error occurred: " ++ err, none⟩,
            [CalCall.delete cid eid])) ∧
    (∀ params err b, env.modelListParams = Except.ok params →
      env.listApi params = Except.error err →
      delete_event env cid desc b
        = (Except.ok ⟨false, "An error occurred: " ++ err, none⟩,
            [CalCall.list params])) ∧
    (∀ params err, env.modelListParams = Except.ok params →
      env.listApi params = Except.error err →
      modify_event env cid desc
        = (Except.ok ⟨false, "An error occurred: " ++ err, none⟩,
            [CalCall.list params])) ∧
    (∀ params e0 fields err, env.modelListParams = Except.ok params →
      env.listApi params = Except.ok [e0] →
      env.modelModifyFields = Except.ok fields →
      env.patchApi cid e0.id fields = Except.error err →
      (modify_event env cid desc).1
        = Except.ok ⟨false,
            "An error occurred while modifying the event (" ++ e0.id ++ "): "
              ++ err, none⟩) ∧
    (∀ err, env.modelNewEvent = Except.error err →
      create_new_event env cid desc
        = (Except.error (PyErr.modelError err), [])) ∧
    (∀ err, env.classifyCalendar = Except.error err →
      process_calendar_request env cid desc
        = (Except.error (PyErr.modelError err), [])) := by
  refine ⟨?_, ?_, ?_, ?_, ?_, ?_, ?_⟩
  · intro details err hm hi
    simp [create_new_event, hm, hi]
  · intro err hd
    simp [delete_event_by_id, hd]
  · intro params err b h1 h2
    simp [delete_event, get_calendar_events, h1, h2]
  · intro params err h1 h2
    simp [modify_event, get_calendar_events, h1, h2]
  · intro params e0 fields err h1 h2 hm hp
    simp [modify_event, get_calendar_events, h1, h2, hm, hp]
  · intro err hm
    simp [create_new_event, hm]
  · intro err hc
    simp [process_calendar_request, hc]

/-- Witness for C6 as amended: a failing insert call becomes a non-success
Outcome carrying the error's message. -/
theorem C6_witness :
    create_new_event
        ⟨Except.ok clsYes, Except.ok rtDelete, Except.ok paramsA,
          Except.ok detailsA, Except.ok detailsA, fun _ => Except.ok [],
          fun _ _ => Except.error "403 Forbidden", fun _ _ _ => Except.ok (),
          fun _ _ => Except.ok (), "y"⟩ "primary" "team meeting"
      = (Except.ok ⟨false, "An error occurred: " ++ "403 Forbidden", none⟩,
          [CalCall.insert "primary" detailsA]) :=
  (C6_error_propagation
      ⟨Except.ok clsYes, Except.ok rtDelete, Except.ok paramsA,
        Except.ok detailsA, Except.ok detailsA, fun _ => Except.ok [],
        fun _ _ => Except.error "403 Forbidden", fun _ _ _ => Except.ok (),
        fun _ _ => Except.ok (), "y"⟩ "primary" "team meeting" "e1").1
    detailsA "403 Forbidden" rfl rfl

/-- A confident new-event classification. -/
def rtNew : CalendarRequestType := ⟨"team meeting", EventType.new_event, 9/10⟩

/-- C7: a text classified as calendar-related and as "new_event", both with
confidence above 0.7, leads to exactly one insert call; the Outcome's
success flag mirrors the insert call's success, and on success the
Outcome carries the created event's link. -/
theorem C7_create_mirrors_insert (env : Env) (cid input : String)
    (cls : CalendarEventCheck) (rt : CalendarRequestType)
    (details : NewEventDetails)
    (hc : env.classifyCalendar = Except.ok cls)
    (hb : cls.is_calendar_event = true)
    (hs : (7 : ℚ)/10 < cls.confidence_score)
    (hr : env.classifyType = Except.ok rt)
    (ht : rt.event_type = EventType.new_event)
    (hts : (7 : ℚ)/10 < rt.confidence_score)
    (hm : env.modelNewEvent = Except.ok details) :
    (process_calendar_request env cid input).2.filter isInsertCall
        = [CalCall.insert cid details] ∧
    (∀ link, env.insertApi cid details = Except.ok link →
      (process_calendar_request env cid input).1
        = Except.ok (some ⟨true, createdMsg details, some link⟩)) ∧
    (∀ err, env.insertApi cid details = Except.error err →
      (process_calendar_request env cid input).1
        = Except.ok (some ⟨false, "An error occurred: " ++ err, none⟩)) := by
  refine ⟨?_, ?_, ?_⟩
  · cases hi : env.insertApi cid details with
    | ok link =>
        simp [process_calendar_request, hc, hb, hs, hr, ht, hts,
          create_new_event, hm, hi, isInsertCall]
    | error err =>
        simp [process_calendar_request, hc, hb, hs, hr, ht, hts,
          create_new_event, hm, hi, isInsertCall]
  · intro link hi
    simp [process_calendar_request, hc, hb, hs, hr, ht, hts,
      create_new_event, hm, hi, Except.map]
  · intro err hi
    simp [process_calendar_request, hc, hb, hs, hr, ht, hts,
      create_new_event, hm, hi, Except.map]

/-- Witness for C7 at a concrete environment whose insert succeeds. -/
theorem C7_witness :
    (process_calendar_request (mkEnv clsYes rtNew [] "y") "primary"
        "schedule a team meeting tomorrow at 2pm").2.filter isInsertCall
      = [CalCall.insert "primary" detailsA] ∧
    (process_calendar_request (mkEnv clsYes rtNew [] "y") "primary"
        "schedule a team meeting tomorrow at 2pm").1
      = Except.ok (some ⟨true, createdMsg detailsA,
          some "https://calendar.google.com/event/abc"⟩) :=
  ⟨(C7_create_mirrors_insert (mkEnv clsYes rtNew [] "y") "primary"
      "schedule a team meeting tomorrow at 2pm" clsYes rtNew detailsA
      rfl rfl (by norm_num [clsYes]) rfl rfl (by norm_num [rtNew]) rfl).1,
   (C7_create_mirrors_insert (mkEnv clsYes rtNew [] "y") "primary"
      "schedule a team meeting tomorrow at 2pm" clsYes rtNew detailsA
      rfl rfl (by norm_num [clsYes]) rfl rfl (by norm_num [rtNew]) rfl).2.1
     "https://calendar.google.com/event/abc" rfl⟩

/-- C10: in both the modify and delete flows the search (list) call is
issued against the MODEL-extracted `calendarId` while the subsequent
patch/delete is issued against the CALLER-supplied `calendar_id`; when the
two differ, the mutation targets a calendar other than the searched one. -/
theorem C10_mutation_calendar_mismatch (env : Env) (cid desc : String)
    (params : EventsListParameters) (e0 : Event) (fields : NewEventDetails)
    (h1 : env.modelListParams = Except.ok params)
    (h2 : env.listApi params = Except.ok [e0])
    (h3 : strLower env.confirmInput = "y")
    (h4 : env.modelModifyFields = Except.ok fields) :
    (modify_event env cid desc).2.filterMap searchCalendar
        = [params.calendarId] ∧
    (modify_event env cid desc).2.filterMap mutationCalendar = [cid] ∧
    (delete_event env cid desc false).2.filterMap searchCalendar
        = [params.calendarId] ∧
    (delete_event env cid desc false).2.filterMap mutationCalendar = [cid] ∧
    (params.calendarId ≠ cid →
      (modify_event env cid desc).2.filterMap searchCalendar
          ≠ (modify_event env cid desc).2.filterMap mutationCalendar ∧
      (delete_event env cid desc false).2.filterMap searchCalendar
          ≠ (delete_event env cid desc false).2.filterMap mutationCalendar) := by
  have hA : (modify_event env cid desc).2.filterMap searchCalendar
      = [params.calendarId] := by
    cases hp : env.patchApi cid e0.id fields with
    | ok u =>
        simp [modify_event, get_calendar_events, h1, h2, h4, hp,
          searchCalendar, List.filterMap]
    | error err =>
        simp [modify_event, get_calendar_events, h1, h2, h4, hp,
          searchCalendar, List.filterMap]
  have hB : (modify_event env cid desc).2.filterMap mutationCalendar
      = [cid] := by
    cases hp : env.patchApi cid e0.id fields with
    | ok u =>
        simp [modify_event, get_calendar_events, h1, h2, h4, hp,
          mutationCalendar, List.filterMap]
    | error err =>
        simp [modify_event, get_calendar_events, h1, h2, h4, hp,
          mutationCalendar, List.filterMap]
  have hC : (delete_event env cid desc false).2.filterMap searchCalendar
      = [params.calendarId] := by
    cases hd : env.deleteApi cid e0.id with
    | ok u =>
        simp [delete_event, get_calendar_events, h1, h2, h3, deletePhase,
          delete_event_by_id, hd, searchCalendar, List.filterMap]
    | error err =>
        simp [delete_event, get_calendar_events, h1, h2, h3, deletePhase,
          delete_event_by_id, hd, searchCalendar, List.filterMap]
  have hD : (delete_event env cid desc false).2.filterMap mutationCalendar
      = [cid] := by
    cases hd : env.deleteApi cid e0.id with
    | ok u =>
        simp [delete_event, get_calendar_events, h1, h2, h3, deletePhase,
          delete_event_by_id, hd, mutationCalendar, List.filterMap]
    | error err =>
        simp [delete_event, get_calendar_events, h1, h2, h3, deletePhase,
          delete_event_by_id, hd, mutationCalendar, List.filterMap]
  refine ⟨hA, hB, hC, hD, ?_⟩
  intro hne
  rw [hA, hB, hC, hD]
  exact ⟨by simp [hne], by simp [hne]⟩

/-- Witness for C10: the model extracted `"primary"` but the caller passed
`"work"`; the searched and mutated calendars differ. -/
theorem C10_witness :
    (modify_event (mkEnv clsYes rtModify [ev1] "y") "work"
        "move the sync").2.filterMap searchCalendar = ["primary"] ∧
    (modify_event (mkEnv clsYes rtModify [ev1] "y") "work"
        "move the sync").2.filterMap mutationCalendar = ["work"] ∧
    (modify_event (mkEnv clsYes rtModify [ev1] "y") "work"
        "move the sync").2.filterMap searchCalendar
      ≠ (modify_event (mkEnv clsYes rtModify [ev1] "y") "work"
        "move the sync").2.filterMap mutationCalendar :=
  ⟨(C10_mutation_calendar_mismatch (mkEnv clsYes rtModify [ev1] "y") "work"
      "move the sync" paramsA ev1 detailsA rfl rfl (by decide) rfl).1,
   (C10_mutation_calendar_mismatch (mkEnv clsYes rtModify [ev1] "y") "work"
      "move the sync" paramsA ev1 detailsA rfl rfl (by decide) rfl).2.1,
   ((C10_mutation_calendar_mismatch (mkEnv clsYes rtModify [ev1] "y") "work"
      "move the sync" paramsA ev1 detailsA rfl rfl (by decide) rfl).2.2.2.2
     (by decide)).1⟩

end CalendarAgent
